import Mathlib

/-!
Verification of the Image-watermarker core pipeline (src/main.py) against its
natural-language specification.

Shallow embedding conventions:
* PIL images are modelled by their pixel dimensions (`PILImage`), since the
  geometry / control-flow level of the program only ever inspects `.size`.
* Python float values are modelled exactly as rational values, represented by
  an integer numerator and a positive natural denominator (`PyFloat`); every
  finite IEEE double is such a rational.  `pyInt` models the Python `int()`
  builtin on a real value: truncation toward zero.
* Every function in `main.py` wraps its body in `try/except` blocks that
  print the raised error and fall through, returning `None`.  The spec (§7)
  reads this as the function failing with the given error kind, so fallible
  functions are embedded with `Except PyError` / an explicit error field.
* Python `//` is floor division, embedded as `Int.fdiv`; Python `int()` on a
  nonnegative value truncates, embedded via `Int.tdiv`.
* File paths follow POSIX `os.path` semantics (`posixJoin`, `posixBasename`).
-/

namespace Watermarker

/-- Error kinds raised (and then printed) by `main.py`: `TypeError`,
`ValueError`, and the OS/codec errors that `Image.open` and `Image.save`
can raise, all of which land in an `except` block that prints them. -/
inductive PyError where
  | typeError (msg : String)
  | valueError (msg : String)
  | osError (msg : String)
deriving DecidableEq, Repr

/-- A Python float value, represented exactly: the rational
`num / den` with `den > 0`.  Every finite IEEE-754 double is such a
rational, and the program treats the scale factor purely as a real value. -/
structure PyFloat where
  num : Int
  den : Nat
  den_pos : 0 < den

/-- The exact rational value of a Python float. -/
def PyFloat.toRat (s : PyFloat) : ℚ := (s.num : ℚ) / (s.den : ℚ)

/-- A dynamically typed Python number: `isinstance(x, float)` distinguishes
`int` from `float` (a Python `int` is never an instance of `float`). -/
inductive PyNum where
  | int (n : Int)
  | float (s : PyFloat)

/-- `isinstance(x, float)` for a `PyNum`. -/
def PyNum.isFloat : PyNum → Bool
  | .int _ => false
  | .float _ => true

/-- Python `int()` applied to an exact real (rational) value: truncation
toward zero.  For a rational in lowest terms this is `num.tdiv den`. -/
def pyInt (q : ℚ) : Int := q.num.tdiv q.den

/-- `int(w * s)` for an integer `w` and float `s = num/den`, computed on the
integer representation: `(w * num).tdiv den` (truncation toward zero). -/
def scaleTrunc (w : Int) (s : PyFloat) : Int := (w * s.num).tdiv s.den

/-- A PIL image, modelled by its dimensions only (the geometry layer of
`main.py` inspects nothing else). -/
structure PILImage where
  width : Int
  height : Int
deriving DecidableEq, Repr

/-- `image.size` of PIL: the `(width, height)` pair. -/
def PILImage.size (im : PILImage) : Int × Int := (im.width, im.height)

/-- `offset(original_image, watermark, position)` from `main.py` lines 14-46,
on the image sizes (the function reads only `.size`).  The Python code
raises `ValueError` on an unknown position; its own `except` block prints
the message and returns `None`, embedded here as `Except.error`.
Python `//` is floor division, embedded as `Int.fdiv`. -/
def offset (original_image_size watermark_size : Int × Int) (position : String) :
    Except PyError (Int × Int) :=
  if position = "top-left" then
    .ok (0, 0)
  else if position = "bottom-left" then
    .ok (0, original_image_size.2 - watermark_size.2)
  else if position = "top-right" then
    .ok (original_image_size.1 - watermark_size.1, 0)
  else if position = "bottom-right" then
    .ok (original_image_size.1 - watermark_size.1,
         original_image_size.2 - watermark_size.2)
  else if position = "center" then
    .ok ((original_image_size.1 - watermark_size.1).fdiv 2,
         (original_image_size.2 - watermark_size.2).fdiv 2)
  else
    .error (.valueError "Invalid position provided. Possible values: top-left, bottom-left, top-right, bottom-right, center")

/-- `resize(original_image_size, scale_factor)` from `main.py` lines 49-84.
The `isinstance(original_image_size, tuple)` check always passes in this
typed embedding; `isinstance(scale_factor, float)` is the `PyNum` match.
`scale_factor <= 0` holds exactly when the numerator is nonpositive, since
the denominator is positive (`PyFloat.toRat_nonpos_iff` below).
`int(width * scale_factor)` truncates toward zero (`scaleTrunc`).  Errors
are printed and `None` returned in Python, embedded as `Except.error`. -/
def resize (original_image_size : Int × Int) (scale_factor : PyNum) :
    Except PyError (Int × Int) :=
  match scale_factor with
  | .int _ => .error (.typeError "scale_factor must be a float.")
  | .float s =>
    if s.num ≤ 0 then
      .error (.valueError "scale_factor must be greater than 0.")
    else
      .ok (scaleTrunc original_image_size.1 s, scaleTrunc original_image_size.2 s)

/-- Python `str.lower()` (the program only ever lowercases ASCII file
names, so ASCII lowering suffices). -/
def pyLower (s : String) : String := String.mk (s.data.map Char.toLower)

/-- Python `str.endswith(suffix)`. -/
def pyEndsWith (s suffix_str : String) : Bool := suffix_str.data.isSuffixOf s.data

/-- POSIX `os.path.join(a, b)`: an absolute `b` replaces `a`; otherwise `b`
is appended, inserting a separator unless `a` is empty or already ends in
one. -/
def posixJoin (a b : String) : String :=
  if b.data.head? = some '/' then b
  else if a.data = [] then b
  else if a.data.getLast? = some '/' then String.mk (a.data ++ b.data)
  else String.mk (a.data ++ '/' :: b.data)

/-- POSIX `os.path.basename(p)`: everything after the last separator. -/
def posixBasename (p : String) : String :=
  String.mk ((p.data.reverse.takeWhile (fun c => c ≠ '/')).reverse)

/-- `IMAGE_FILE_EXTENSIONS` from `main.py` lines 5-11. -/
def IMAGE_FILE_EXTENSIONS : List String := [".jpg", ".jpeg", ".png", ".gif", ".bmp"]

/-- `filepath.lower().endswith(IMAGE_FILE_EXTENSIONS)`: Python `endswith`
with a tuple argument succeeds when any member is a suffix. -/
def extMatches (s : String) : Bool := IMAGE_FILE_EXTENSIONS.any (fun e => pyEndsWith s e)

/-- `build_output_path(file_name, output_path)` from `main.py` lines 87-121.
The two `isinstance(_, str)` checks always pass in this typed embedding; the
emptiness check raises `ValueError` (printed, `None` returned), embedded as
`Except.error`; otherwise `os.path.join(output_path, "watermarked_" + file_name)`. -/
def build_output_path (file_name output_path : String) : Except PyError String :=
  if file_name = "" ∨ output_path = "" then
    .error (.valueError "file_name and output_path cannot be empty strings.")
  else
    .ok (posixJoin output_path ("watermarked_" ++ file_name))

/-- `valid_positions` from `main.py` lines 160-161. -/
def valid_positions : List String :=
  ["top-left", "bottom-left", "top-right", "bottom-right", "center"]

/-- Observable image-library side effects of one `add_watermark` call:
resizing the watermark to a target size, pasting it at an offset, and
saving the composited image to a path. -/
inductive Event where
  | resizeWM (target : Int × Int)
  | paste (off : Int × Int)
  | save (path : String)
deriving DecidableEq, Repr

/-- Result of one `add_watermark` call: the image-library effects that were
performed, and the error that its `except` blocks printed, if any (the
Python function itself always returns `None`). -/
structure WMOutcome where
  events : List Event
  error : Option PyError
deriving DecidableEq, Repr

/-- `add_watermark(...)` from `main.py` lines 124-185, parameterized by the
decoder `open_image` (`PIL.Image.open`, which may fail on a missing or
corrupt file).  Faithful to the source order: the six `isinstance` checks
(only the `float` one can fail in this typed embedding), the
`valid_positions` membership check, opening both images, resizing the
watermark to `resize(image.size, scale_factor)`, building the mask
(size-preserving, not traced), pasting at `offset(...)`, and saving to
`build_output_path(file_name, output_path)`.  A `None` returned by `resize`,
`offset` or `build_output_path` makes the following PIL call raise, so the
outcome error is recorded and later effects do not happen. -/
def add_watermark (open_image : String → Option PILImage)
    (image_path watermark_path output_path position : String)
    (scale_factor : PyNum) (file_name : String) : WMOutcome :=
  match scale_factor with
  | .int _ => ⟨[], some (.typeError "scale_factor must be a float.")⟩
  | .float s =>
    if position ∈ valid_positions then
      match open_image image_path, open_image watermark_path with
      | some image, some _watermark =>
        match resize image.size (.float s) with
        | .error e => ⟨[], some e⟩
        | .ok target =>
          match offset image.size target position with
          | .error e => ⟨[.resizeWM target], some e⟩
          | .ok off =>
            match build_output_path file_name output_path with
            | .error e => ⟨[.resizeWM target, .paste off], some e⟩
            | .ok out_file =>
              ⟨[.resizeWM target, .paste off, .save out_file], none⟩
      | _, _ => ⟨[], some (.osError "cannot open image")⟩
    else
      ⟨[], some (.valueError "position must be one of the valid positions.")⟩

/-- `add_watermarks_to_directory(...)` from `main.py` lines 188-223, with
the directory listing `os.listdir(directory)` passed in explicitly.  The
`isinstance(directory, str)` check always passes in this typed embedding.
Returns, in listing order, the file path and outcome of each
`add_watermark` invocation; entries whose joined path does not match an
image extension are skipped (the loop has no recursion into
subdirectories). -/
def add_watermarks_to_directory (open_image : String → Option PILImage)
    (listing : List String) (directory watermark_path output_path position : String)
    (scale_factor : PyNum) : List (String × WMOutcome) :=
  match listing with
  | [] => []
  | filename :: rest =>
    let filepath := posixJoin directory filename
    if extMatches (pyLower filepath) then
      (filepath,
        add_watermark open_image filepath watermark_path output_path position
          scale_factor (posixBasename filepath)) ::
        add_watermarks_to_directory open_image rest directory watermark_path
          output_path position scale_factor
    else
      add_watermarks_to_directory open_image rest directory watermark_path
        output_path position scale_factor

/-- The target size the watermark was resized to during one `add_watermark`
call, if the call reached that step. -/
def wmResizeTarget (o : WMOutcome) : Option (Int × Int) :=
  (o.events.filterMap (fun e =>
    match e with
    | .resizeWM t => some t
    | _ => none)).head?

/-- The watermark with top-left corner at `(x, y)` lies fully within the
base image: nonnegative offset and the far corner inside the base size. -/
def withinBounds (bw bh ww wh x y : Int) : Prop :=
  0 ≤ x ∧ 0 ≤ y ∧ x + ww ≤ bw ∧ y + wh ≤ bh

/-- The Python float `0.5`. -/
def pyHalf : PyFloat := ⟨1, 2, by decide⟩

/-- The Python float `0.333`. -/
def py333 : PyFloat := ⟨333, 1000, by decide⟩

/-- The Python float `0.0`. -/
def pyZero : PyFloat := ⟨0, 1, by decide⟩

/-- A concrete decoder: a 200x100 original at `img.png` and a 50x50
watermark at `wm.png`; everything else fails to open. -/
def env9 : String → Option PILImage := fun p =>
  if p = "img.png" then some ⟨200, 100⟩
  else if p = "wm.png" then some ⟨50, 50⟩
  else none

/-- A decoder on which every open fails (missing or corrupt files). -/
def envNone : String → Option PILImage := fun _ => none

/- ### Truncation lemmas: `tdiv` computations agree with `pyInt` on values -/

/-- `pyInt` is odd: truncation toward zero commutes with negation. -/
lemma pyInt_neg (q : ℚ) : pyInt (-q) = -(pyInt q) := by
  simp [pyInt, Rat.neg_num, Rat.neg_den, Int.neg_tdiv]

/-- For a nonnegative rational, truncation toward zero is the floor. -/
lemma pyInt_of_nonneg {q : ℚ} (h : 0 ≤ q) : pyInt q = ⌊q⌋ := by
  rw [pyInt, Rat.floor_def]
  exact Int.tdiv_eq_ediv (Rat.num_nonneg.mpr h) (Int.ofNat_nonneg _)

/-- Integer `tdiv` by a positive natural computes the truncation toward zero
of the exact rational quotient. -/
lemma tdiv_eq_pyInt (a : Int) (d : Nat) :
    a.tdiv (d : Int) = pyInt ((a : ℚ) / (d : ℚ)) := by
  have hd0 : (0 : Int) ≤ (d : Int) := Int.ofNat_nonneg d
  have hdq : (0 : ℚ) ≤ (d : ℚ) := by exact_mod_cast Nat.zero_le d
  rcases le_or_lt 0 a with ha | ha
  · have haq : (0 : ℚ) ≤ (a : ℚ) := by exact_mod_cast ha
    rw [Int.tdiv_eq_ediv ha hd0, pyInt_of_nonneg (div_nonneg haq hdq),
      Rat.floor_intCast_div_natCast]
  · have ha' : (0 : Int) ≤ -a := by omega
    have haq : (0 : ℚ) ≤ ((-a : Int) : ℚ) := by exact_mod_cast ha'
    have h1 : a.tdiv (d : Int) = -((-a).tdiv (d : Int)) := by
      rw [Int.neg_tdiv, neg_neg]
    rw [h1, Int.tdiv_eq_ediv ha' hd0, ← Rat.floor_intCast_div_natCast,
      ← pyInt_of_nonneg (div_nonneg haq hdq)]
    have h2 : ((-a : Int) : ℚ) / (d : ℚ) = -((a : ℚ) / (d : ℚ)) := by
      push_cast
      ring
    rw [h2, pyInt_neg, neg_neg]

/-- `scaleTrunc` computes `int(w * s)` on the exact rational value of the
float `s`: representation independence of the truncated product. -/
lemma scaleTrunc_eq_pyInt (w : Int) (s : PyFloat) :
    scaleTrunc w s = pyInt ((w : ℚ) * s.toRat) := by
  rw [scaleTrunc, tdiv_eq_pyInt (w * s.num) s.den, PyFloat.toRat]
  congr 1
  push_cast
  ring

/-- The float comparison `scale_factor <= 0` in terms of the numerator. -/
lemma PyFloat.toRat_nonpos_iff (s : PyFloat) : s.toRat ≤ 0 ↔ s.num ≤ 0 := by
  have hdq : (0 : ℚ) < (s.den : ℚ) := by exact_mod_cast s.den_pos
  rw [PyFloat.toRat, div_nonpos_iff]
  constructor
  · rintro (⟨h1, h2⟩ | ⟨h1, h2⟩)
    · exact absurd h2 (not_le.mpr hdq)
    · exact_mod_cast h1
  · intro h
    exact Or.inr ⟨by exact_mod_cast h, le_of_lt hdq⟩

/-- Strict positivity of a float value in terms of the numerator. -/
lemma PyFloat.toRat_pos_iff (s : PyFloat) : 0 < s.toRat ↔ 0 < s.num := by
  rw [← not_le, ← not_le, s.toRat_nonpos_iff]

/- ### Suffix lemmas: extension matching on a joined path only sees the
file-name component, because the separator occurs in no extension. -/

/-- A separator-free list is a suffix of `x ++ '/' :: y` exactly when it is
a suffix of `y`: a longer suffix would contain the separator. -/
lemma suffix_append_sep {ext : List Char} (x y : List Char)
    (hext : ('/' : Char) ∉ ext) : ext <:+ x ++ '/' :: y ↔ ext <:+ y := by
  induction x with
  | nil =>
    rw [List.nil_append, List.suffix_cons_iff]
    constructor
    · rintro (rfl | h)
      · exact absurd (List.mem_cons_self _ _) hext
      · exact h
    · exact Or.inr
  | cons c x ih =>
    rw [List.cons_append, List.suffix_cons_iff]
    constructor
    · rintro (rfl | h)
      · exact absurd (by simp) hext
      · exact ih.mp h
    · exact fun h => Or.inr (ih.mpr h)

/-- `isSuffixOf` version of `suffix_append_sep`, at the `Bool` level. -/
lemma isSuffixOf_append_sep {ext : List Char} (x y : List Char)
    (hext : ('/' : Char) ∉ ext) :
    ext.isSuffixOf (x ++ '/' :: y) = ext.isSuffixOf y := by
  rw [Bool.eq_iff_iff, List.isSuffixOf_iff_suffix, List.isSuffixOf_iff_suffix]
  exact suffix_append_sep x y hext

/-- Lowering a path and testing an extension suffix is insensitive to the
directory component added by `posixJoin`, for separator-free extensions. -/
lemma pyEndsWith_join (d f e : String) (he : ('/' : Char) ∉ e.data) :
    pyEndsWith (pyLower (posixJoin d f)) e = pyEndsWith (pyLower f) e := by
  have hsep : Char.toLower '/' = '/' := by decide
  rw [posixJoin]
  by_cases hb : f.data.head? = some '/'
  · rw [if_pos hb]
  · rw [if_neg hb]
    by_cases ha : d.data = []
    · rw [if_pos ha]
    · rw [if_neg ha]
      by_cases hl : d.data.getLast? = some '/'
      · rw [if_pos hl]
        have hlast : d.data.getLast ha = '/' := by
          have h2 := List.getLast?_eq_getLast d.data ha
          rw [h2] at hl
          exact Option.some.inj hl
        have hd2 : d.data.dropLast ++ '/' :: f.data = d.data ++ f.data := by
          conv_rhs => rw [← List.dropLast_append_getLast ha, hlast]
          rw [List.append_assoc]
          rfl
        simp only [pyEndsWith, pyLower]
        rw [← hd2, List.map_append, List.map_cons, hsep,
          isSuffixOf_append_sep _ _ he]
      · rw [if_neg hl]
        simp only [pyEndsWith, pyLower]
        rw [List.map_append, List.map_cons, hsep, isSuffixOf_append_sep _ _ he]

/-- Extension matching on a lowered joined path is extension matching on the
lowered file name: no recognized extension contains the separator. -/
lemma extMatches_join (d f : String) :
    extMatches (pyLower (posixJoin d f)) = extMatches (pyLower f) := by
  have he : ∀ e ∈ IMAGE_FILE_EXTENSIONS, ('/' : Char) ∉ e.data := by decide
  rw [extMatches, extMatches, Bool.eq_iff_iff, List.any_eq_true, List.any_eq_true]
  constructor
  · rintro ⟨e, hmem, hp⟩
    refine ⟨e, hmem, ?_⟩
    rw [← pyEndsWith_join d f e (he e hmem)]
    exact hp
  · rintro ⟨e, hmem, hp⟩
    refine ⟨e, hmem, ?_⟩
    rw [pyEndsWith_join d f e (he e hmem)]
    exact hp

/-- The Batch Driver invokes the Compositor exactly on the listing entries
whose lowered name matches a recognized extension, on the joined paths, in
listing order. -/
lemma driver_map_fst (open_image : String → Option PILImage)
    (listing : List String) (d wm out pos : String) (sf : PyNum) :
    (add_watermarks_to_directory open_image listing d wm out pos sf).map Prod.fst =
      (listing.filter (fun f => extMatches (pyLower f))).map (fun f => posixJoin d f) := by
  induction listing with
  | nil => rfl
  | cons f rest ih =>
    simp only [add_watermarks_to_directory]
    rw [extMatches_join d f]
    by_cases h : extMatches (pyLower f) = true
    · rw [if_pos h, List.filter_cons, if_pos h, List.map_cons, List.map_cons, ih]
    · rw [if_neg h, List.filter_cons, if_neg h, ih]

/- ### Claim theorems -/

/-- C1: the offset function returns exactly the mandated pair for each of
the five positions: top-left `(0, 0)`; bottom-left `(0, bh - wh)`;
top-right `(bw - ww, 0)`; bottom-right `(bw - ww, bh - wh)`; center
`((bw - ww) // 2, (bh - wh) // 2)` with floor division. -/
theorem offset_per_position (bw bh ww wh : Int) :
    offset (bw, bh) (ww, wh) "top-left" = .ok (0, 0) ∧
    offset (bw, bh) (ww, wh) "bottom-left" = .ok (0, bh - wh) ∧
    offset (bw, bh) (ww, wh) "top-right" = .ok (bw - ww, 0) ∧
    offset (bw, bh) (ww, wh) "bottom-right" = .ok (bw - ww, bh - wh) ∧
    offset (bw, bh) (ww, wh) "center" = .ok ((bw - ww).fdiv 2, (bh - wh).fdiv 2) :=
  ⟨rfl, rfl, rfl, rfl, rfl⟩

/-- C2: whenever the watermark is no larger than the base image in both
dimensions, the offset computed for any of the five valid positions keeps
the watermark fully within the base image bounds. -/
theorem offset_keeps_watermark_within_bounds (bw bh ww wh : Int) (position : String)
    (hw : ww ≤ bw) (hh : wh ≤ bh) (hpos : position ∈ valid_positions) :
    ∃ x y, offset (bw, bh) (ww, wh) position = .ok (x, y) ∧
      withinBounds bw bh ww wh x y := by
  have h2 : (0 : Int) ≤ 2 := by norm_num
  simp only [valid_positions, List.mem_cons, List.not_mem_nil, or_false] at hpos
  rcases hpos with rfl | rfl | rfl | rfl | rfl
  · refine ⟨0, 0, rfl, ?_⟩
    simp only [withinBounds]
    omega
  · refine ⟨0, bh - wh, rfl, ?_⟩
    simp only [withinBounds]
    omega
  · refine ⟨bw - ww, 0, rfl, ?_⟩
    simp only [withinBounds]
    omega
  · refine ⟨bw - ww, bh - wh, rfl, ?_⟩
    simp only [withinBounds]
    omega
  · refine ⟨(bw - ww).fdiv 2, (bh - wh).fdiv 2, rfl, ?_⟩
    simp only [withinBounds]
    rw [Int.fdiv_eq_ediv _ h2, Int.fdiv_eq_ediv _ h2]
    omega

/-- Witness for C2 at base 200x100, watermark 50x50, position center. -/
theorem offset_keeps_watermark_within_bounds_witness :
    ∃ x y, offset (200, 100) (50, 50) "center" = .ok (x, y) ∧
      withinBounds 200 100 50 50 x y :=
  offset_keeps_watermark_within_bounds 200 100 50 50 "center"
    (by decide) (by decide) (by decide)

/-- C4: for positive dimensions and a positive scale factor, `resize`
returns each dimension multiplied by the exact scale value and truncated
toward zero; in particular `resize((200,100), 0.5) = (100,50)` and
`resize((101,101), 0.333) = (33,33)` (truncation, not rounding). -/
theorem resize_truncates (w h : Int) (s : PyFloat)
    (hw : 0 < w) (hh : 0 < h) (hs : 0 < s.toRat) :
    resize (w, h) (.float s) =
      .ok (pyInt ((w : ℚ) * s.toRat), pyInt ((h : ℚ) * s.toRat)) ∧
    resize (200, 100) (.float pyHalf) = .ok (100, 50) ∧
    resize (101, 101) (.float py333) = .ok (33, 33) := by
  refine ⟨?_, rfl, rfl⟩
  have hnum : ¬ s.num ≤ 0 := not_le.mpr (s.toRat_pos_iff.mp hs)
  simp only [resize, if_neg hnum, scaleTrunc_eq_pyInt]

/-- Witness for C4 at size (200,100) and scale 0.5. -/
theorem resize_truncates_witness :
    resize (200, 100) (.float pyHalf) = .ok (100, 50) :=
  (resize_truncates 200 100 pyHalf (by decide) (by decide)
    ((PyFloat.toRat_pos_iff pyHalf).mpr (by decide))).2.1

/-- C5: for every image size and every scale factor with value less than or
equal to zero, `resize` fails with the ValueError and returns no size. -/
theorem resize_rejects_nonpositive_scale (sz : Int × Int) (s : PyFloat)
    (hs : s.toRat ≤ 0) :
    resize sz (.float s) =
      .error (.valueError "scale_factor must be greater than 0.") := by
  have h : s.num ≤ 0 := s.toRat_nonpos_iff.mp hs
  simp only [resize, if_pos h]

/-- Witness for C5 at scale factor 0.0. -/
theorem resize_rejects_nonpositive_scale_witness :
    resize (200, 100) (.float pyZero) =
      .error (.valueError "scale_factor must be greater than 0.") :=
  resize_rejects_nonpositive_scale (200, 100) pyZero
    ((PyFloat.toRat_nonpos_iff pyZero).mpr (by decide))

/-- C6: for nonempty inputs `build_output_path` returns
`join(output_directory, "watermarked_" + file_name)`; it fails exactly when
`file_name` or `output_path` is empty; and
`build_output_path("cat.png", "/out") = "/out/watermarked_cat.png"`.
It is a pure function of its two string arguments. -/
theorem build_output_path_spec (file_name output_path : String) :
    (file_name ≠ "" → output_path ≠ "" →
      build_output_path file_name output_path =
        .ok (posixJoin output_path ("watermarked_" ++ file_name))) ∧
    ((file_name = "" ∨ output_path = "") →
      build_output_path file_name output_path =
        .error (.valueError "file_name and output_path cannot be empty strings.")) ∧
    build_output_path "cat.png" "/out" = .ok "/out/watermarked_cat.png" := by
  refine ⟨?_, ?_, rfl⟩
  · intro h1 h2
    rw [build_output_path, if_neg (by simp [h1, h2])]
  · intro h
    rw [build_output_path, if_pos h]

/-- Witness for C6 at `("cat.png", "/out")`. -/
theorem build_output_path_spec_witness :
    build_output_path "cat.png" "/out" =
      .ok (posixJoin "/out" ("watermarked_" ++ "cat.png")) :=
  (build_output_path_spec "cat.png" "/out").1 (by decide) (by decide)

/-- C3: for every position string outside the five valid values, the offset
function fails with the ValueError, and the Compositor called with that
position performs no image-library effect at all (no resize, no paste, no
save), recording the position ValueError instead. -/
theorem invalid_position_rejected (sz wsz : Int × Int)
    (open_image : String → Option PILImage)
    (image_path watermark_path output_path position file_name : String)
    (s : PyFloat) (hpos : position ∉ valid_positions) :
    offset sz wsz position =
      .error (.valueError "Invalid position provided. Possible values: top-left, bottom-left, top-right, bottom-right, center") ∧
    (add_watermark open_image image_path watermark_path output_path position
      (.float s) file_name).events = [] ∧
    (add_watermark open_image image_path watermark_path output_path position
      (.float s) file_name).error =
      some (.valueError "position must be one of the valid positions.") := by
  have h := hpos
  simp only [valid_positions, List.mem_cons, List.not_mem_nil, or_false,
    not_or] at h
  obtain ⟨h1, h2, h3, h4, h5⟩ := h
  refine ⟨?_, ?_, ?_⟩
  · rw [offset, if_neg h1, if_neg h2, if_neg h3, if_neg h4, if_neg h5]
  · simp only [add_watermark, if_neg hpos]
  · simp only [add_watermark, if_neg hpos]

/-- Witness for C3 at position "middle". -/
theorem invalid_position_rejected_witness :
    offset (200, 100) (50, 50) "middle" =
      .error (.valueError "Invalid position provided. Possible values: top-left, bottom-left, top-right, bottom-right, center") ∧
    (add_watermark env9 "img.png" "wm.png" "/o" "middle"
      (.float pyHalf) "img.png").events = [] ∧
    (add_watermark env9 "img.png" "wm.png" "/o" "middle"
      (.float pyHalf) "img.png").error =
      some (.valueError "position must be one of the valid positions.") :=
  invalid_position_rejected (200, 100) (50, 50) env9 "img.png" "wm.png" "/o"
    "middle" "img.png" pyHalf (by decide)

/-- C7: over any directory listing, the Batch Driver invokes the Compositor
exactly on the entries whose lowercased name ends with one of the
recognized image extensions, in listing order, on the joined paths; every
other entry is skipped and nothing else is visited (no recursion). -/
theorem batch_processes_exactly_matching_entries
    (open_image : String → Option PILImage) (listing : List String)
    (d wm out pos : String) (sf : PyNum) :
    (add_watermarks_to_directory open_image listing d wm out pos sf).map Prod.fst =
      (listing.filter (fun f => extMatches (pyLower f))).map (fun f => posixJoin d f) :=
  driver_map_fst open_image listing d wm out pos sf

/-- C8: per-file failure isolation in a batch run: even when the Compositor
invocation for a matching file `f` fails, every matching file `g` listed
after it is still invoked by the Batch Driver. -/
theorem batch_failure_isolation (open_image : String → Option PILImage)
    (pre post : List String) (f g d wm out pos : String) (sf : PyNum)
    (hfail : (add_watermark open_image (posixJoin d f) wm out pos sf
      (posixBasename (posixJoin d f))).error.isSome = true)
    (hf : extMatches (pyLower f) = true)
    (hg : g ∈ post) (hgm : extMatches (pyLower g) = true) :
    posixJoin d g ∈
      (add_watermarks_to_directory open_image (pre ++ f :: post) d wm out pos
        sf).map Prod.fst := by
  rw [driver_map_fst]
  exact List.mem_map_of_mem _ (List.mem_filter.mpr
    ⟨List.mem_append.mpr (Or.inr (List.mem_cons_of_mem _ hg)), hgm⟩)

/-- Witness for C8: `a.png` fails to open (every decode fails), yet the
later matching `c.JPG` is still invoked. -/
theorem batch_failure_isolation_witness :
    posixJoin "/d" "c.JPG" ∈
      (add_watermarks_to_directory envNone (["b.txt"] ++ "a.png" :: ["c.JPG"])
        "/d" "/w.png" "/o" "center" (.float pyHalf)).map Prod.fst :=
  batch_failure_isolation envNone ["b.txt"] ["c.JPG"] "a.png" "c.JPG" "/d"
    "/w.png" "/o" "center" (.float pyHalf) (by decide) (by decide)
    (by decide) (by decide)

/-- C9 counterexample: with a 200x100 original, a 50x50 watermark and scale
factor 0.5, the watermark is resized to `(100, 50)` — computed from the
original image's size — not to `(25, 25)` as the claim's formula
`(trunc(wm.width * s), trunc(wm.height * s))` mandates. -/
theorem scale_applies_to_watermark_size_cex :
    wmResizeTarget (add_watermark env9 "img.png" "wm.png" "/o" "center"
      (.float pyHalf) "img.png") = some (100, 50) ∧
    wmResizeTarget (add_watermark env9 "img.png" "wm.png" "/o" "center"
      (.float pyHalf) "img.png") ≠
      some (scaleTrunc 50 pyHalf, scaleTrunc 50 pyHalf) := by
  refine ⟨rfl, ?_⟩
  intro h
  simp only [wmResizeTarget] at h
  exact absurd (Option.some.inj h) (by decide)

/-- C9 amended: the Compositor resizes the watermark to the size obtained
by scaling the ORIGINAL image's dimensions (not the watermark's own
dimensions) by the scale factor and truncating toward zero. -/
theorem scale_applies_to_original_size (open_image : String → Option PILImage)
    (image_path watermark_path output_path position file_name : String)
    (img wmimg : PILImage) (s : PyFloat)
    (h1 : open_image image_path = some img)
    (h2 : open_image watermark_path = some wmimg)
    (hpos : position ∈ valid_positions) (hs : 0 < s.toRat) :
    wmResizeTarget (add_watermark open_image image_path watermark_path
      output_path position (.float s) file_name) =
      some (pyInt ((img.width : ℚ) * s.toRat), pyInt ((img.height : ℚ) * s.toRat)) := by
  have hnum : ¬ s.num ≤ 0 := not_le.mpr (s.toRat_pos_iff.mp hs)
  simp only [add_watermark, if_pos hpos, h1, h2, resize, PILImage.size,
    if_neg hnum]
  cases hoff : offset (img.width, img.height)
      (scaleTrunc img.width s, scaleTrunc img.height s) position with
  | error e => simp [wmResizeTarget, scaleTrunc_eq_pyInt]
  | ok off =>
    cases hout : build_output_path file_name output_path with
    | error e => simp [wmResizeTarget, scaleTrunc_eq_pyInt]
    | ok out_file => simp [wmResizeTarget, scaleTrunc_eq_pyInt]

/-- Witness for the amended C9 at the concrete decoder `env9`, scale 0.5. -/
theorem scale_applies_to_original_size_witness :
    wmResizeTarget (add_watermark env9 "img.png" "wm.png" "/o" "center"
      (.float pyHalf) "img.png") =
      some (pyInt ((200 : ℚ) * pyHalf.toRat), pyInt ((100 : ℚ) * pyHalf.toRat)) :=
  scale_applies_to_original_size env9 "img.png" "wm.png" "/o" "center"
    "img.png" ⟨200, 100⟩ ⟨50, 50⟩ pyHalf rfl rfl (by decide)
    ((PyFloat.toRat_pos_iff pyHalf).mpr (by decide))

/-- C10: an integer-valued scale factor that is not a Python float is
rejected with the TypeError by both `resize` and `add_watermark`, even when
it is positive; `add_watermark` performs no effect at all. -/
theorem float_type_required (w h n : Int) (open_image : String → Option PILImage)
    (image_path watermark_path output_path position file_name : String)
    (hn : 0 < n) :
    resize (w, h) (.int n) = .error (.typeError "scale_factor must be a float.") ∧
    add_watermark open_image image_path watermark_path output_path position
      (.int n) file_name = ⟨[], some (.typeError "scale_factor must be a float.")⟩ :=
  ⟨rfl, rfl⟩

/-- Witness for C10 at the Python int 1. -/
theorem float_type_required_witness :
    resize (200, 100) (.int 1) =
      .error (.typeError "scale_factor must be a float.") ∧
    add_watermark env9 "img.png" "wm.png" "/o" "center" (.int 1) "img.png" =
      ⟨[], some (.typeError "scale_factor must be a float.")⟩ :=
  float_type_required 200 100 1 env9 "img.png" "wm.png" "/o" "center"
    "img.png" (by decide)

end Watermarker
